import Mathlib

/-!
Verification of the dockerization-agent analysis pipeline.

This file gives a shallow embedding of the Python sources under `agent/`:
the stack detector, framework detector, entrypoint resolver, safety gate,
conversation orchestrator and the generator registry, together with
theorems checking the specification's claims against that embedding.

Modelling conventions:
* Python dicts with a fixed key set become Lean structures, `None` becomes
  `Option.none`, exceptions become `Except.error`.
* Python's `ast` module is an external collaborator: a parsed file is
  carried as a `PyModule` value holding exactly the facts the detectors
  inspect (the `ast.unparse` text of every `If` test, and every `Assign`
  node's name targets and call-of-a-name shape of its value).  `none` for
  the whole module models a parse failure.
* Python string truthiness (empty string / empty list / `None` are falsy)
  is modelled explicitly at each use site.
* `PYTHON_DEP_FILES` is a Python `set` literal; the source iterates over
  it, and CPython fixes no iteration order for string sets across
  interpreter runs (hash randomisation).  The iteration order is therefore
  an explicit parameter `depOrder` of `detect_python_stack`; the list
  `PYTHON_DEP_FILES` below records the elements of the set, and any
  permutation of it is a realisable iteration order.
* `list(set(xs))` (used by the framework detector) is modelled canonically
  as first-occurrence deduplication (`pySetList`); no claim below depends
  on the interpreter-chosen order of that list.
-/

/-- Single-quote character, built numerically so the file itself stays free
of stray quote characters. -/
def squote : Char := Char.ofNat 39

/-- Python `repr` of a quote-free string: wrap in single quotes. -/
def pyQuote (s : String) : String := String.singleton squote ++ s ++ String.singleton squote

/-- Python `repr` of a list of (quote-free) strings, e.g. `[1]` elements
joined by a comma inside square brackets. -/
def pyListRepr (l : List String) : String :=
  "[" ++ String.intercalate ", " (l.map pyQuote) ++ "]"

/-- Whether the first char-list is a prefix of the second (Boolean). -/
def hasPrefixChars : List Char → List Char → Bool
  | [], _ => true
  | _ :: _, [] => false
  | a :: as, b :: bs => a == b && hasPrefixChars as bs

/-- Whether the first char-list occurs as a contiguous infix of the second
(Boolean), i.e. the Python `in` operator on strings. -/
def hasInfixChars (n : List Char) : List Char → Bool
  | [] => hasPrefixChars n []
  | b :: bs => hasPrefixChars n (b :: bs) || hasInfixChars n bs

/-- Python `needle in haystack` for strings. -/
def strContains (haystack needle : String) : Bool :=
  hasInfixChars needle.data haystack.data

/-- Python `s.startswith(p)`. -/
def pyStartsWith (s p : String) : Bool := hasPrefixChars p.data s.data

/-- Python `s.endswith(p)`. -/
def pyEndsWith (s p : String) : Bool := hasPrefixChars p.data.reverse s.data.reverse

/-- Lexicographic comparison of char lists by code point, Python's `<` on
strings. -/
def charListLt : List Char → List Char → Bool
  | [], [] => false
  | [], _ :: _ => true
  | _ :: _, [] => false
  | a :: as, b :: bs =>
    if a.toNat < b.toNat then true
    else if b.toNat < a.toNat then false
    else charListLt as bs

/-- One step of Python `s.replace(old, new)` on char lists, with fuel for
structural termination; the fuel is instantiated with the list length,
which is always sufficient. -/
def replaceCharsFuel (old new : List Char) : Nat → List Char → List Char
  | _, [] => []
  | 0, l => l
  | fuel + 1, b :: bs =>
    if hasPrefixChars old (b :: bs) && !old.isEmpty then
      new ++ replaceCharsFuel old new fuel (List.drop (old.length - 1) bs)
    else
      b :: replaceCharsFuel old new fuel bs

/-- Python `s.replace(old, new)` (all non-overlapping occurrences,
left to right; `old` is never empty at the call sites in the source). -/
def pyReplace (s old new : String) : String :=
  ⟨replaceCharsFuel old.data new.data s.data.length s.data⟩

/-- First-occurrence deduplication with an accumulator of already-seen
elements; canonical model of Python `list(set(xs))`. -/
def dedupAux (seen : List String) : List String → List String
  | [] => []
  | x :: xs => if seen.contains x then dedupAux seen xs else x :: dedupAux (x :: seen) xs

/-- Canonical model of Python `list(set(xs))`: the distinct elements of
`xs`.  CPython returns them in a hash-dependent order; we fix
first-occurrence order, and no theorem below depends on that choice. -/
def pySetList (l : List String) : List String := dedupAux [] l

/-- An `Assign` node as the detectors see it: the assignment targets that
are plain names (`some id`; non-name targets are `none`), and, when the
assigned value is a call whose function is a plain name, that name. -/
structure PyAssign where
  targets : List (Option String)
  valueCall : Option String
  deriving Repr, DecidableEq

/-- A parsed Python module, restricted to the facts the analyzers inspect:
the `ast.unparse` rendering of every `If` node's test (in `ast.walk`
order; `none` when `ast.unparse` raised), and every `Assign` node. -/
structure PyModule where
  ifConds : List (Option String)
  assigns : List PyAssign
  deriving Repr, DecidableEq

/-- A source file: its raw text and its parse result (`none` = `ast.parse`
raised). -/
structure PyFile where
  text : String
  ast : Option PyModule
  deriving Repr, DecidableEq

/-- The `ScanResult` produced by the repository scanner collaborator. -/
structure ScanData where
  total_files : Nat := 0
  files : List String := []
  file_extensions : List (String × Nat) := []
  config_files : List String := []
  deriving Repr, DecidableEq

/-- A repository snapshot: the scanner output plus the file contents the
detectors read on demand (`read_text` on a path absent from `fs` raises,
which every detector catches as no evidence). -/
structure Repo where
  scan : ScanData
  fs : List (String × PyFile)
  deriving Repr, DecidableEq

/-- Reading a file of the repository; `none` models the raised exception
for a missing path. -/
def fsRead (fs : List (String × PyFile)) (name : String) : Option PyFile :=
  match fs.find? (fun p => p.1 == name) with
  | some p => some p.2
  | none => none

/-- A detected FastAPI application binding: keys `file` and `variable` of
the candidate dict built by `_detect_fastapi_apps`. -/
structure Candidate where
  file : String
  varName : String
  deriving Repr, DecidableEq

/-- A dynamically-typed Python value as stored under
`entrypoint_candidates`: the stack detector stores dicts, while the
entrypoint resolver is annotated to expect strings; keeping both shapes
makes that mismatch expressible. -/
inductive PyVal where
  | str (s : String)
  | dict (c : Candidate)
  deriving Repr, DecidableEq

/-- Output of `detect_python_stack`. -/
structure StackResult where
  is_python_project : Bool
  confidence : String
  dependency_management : Option String
  entrypoint_candidates : List PyVal
  notes : List String
  deriving Repr, DecidableEq

/-- Output of `detect_framework`. -/
structure FrameworkResult where
  framework : Option String
  interface : Option String
  runtime_server : Option String
  default_port : Option Nat
  confidence : String
  notes : List String
  deriving Repr, DecidableEq

/-- Output of `resolve_entrypoint`. -/
structure EntrypointResult where
  etype : Option String
  command : Option (List String)
  confidence : String
  notes : List String
  deriving Repr, DecidableEq

/-- The `analyzer_output` dict assembled by the orchestrator and consumed
by the safety gate. -/
structure AnalyzerOutput where
  repository : ScanData := {}
  python_stack : StackResult
  framework : FrameworkResult
  entrypoint : EntrypointResult
  deriving Repr, DecidableEq

/-- Elements of the Python set literal `PYTHON_DEP_FILES`; the set fixes
no iteration order, so functions take the order as a parameter and any
permutation of this list is realisable. -/
def PYTHON_DEP_FILES : List String := ["requirements.txt", "pyproject.toml"]

/-- The `for dep_file in PYTHON_DEP_FILES: if dep_file in files: ... break`
loop, for a given iteration order. -/
def findDepFile (depOrder files : List String) : Option String :=
  match depOrder with
  | [] => none
  | d :: rest => if files.contains d then some d else findDepFile rest files

/-- Candidates contributed by one parsed module in `_detect_fastapi_apps`:
assignments of a call to the name `FastAPI` to plain-name targets. -/
def appsOfModule (file : String) (m : PyModule) : List Candidate :=
  m.assigns.foldl
    (fun acc a =>
      if a.valueCall == some "FastAPI" then
        acc ++ a.targets.filterMap (fun t => t.map (fun v => ⟨file, v⟩))
      else acc)
    []

/-- `_detect_fastapi_apps`: scan every `.py` file, skipping files that
cannot be read or parsed, and collect FastAPI app bindings. -/
def detect_fastapi_apps (fs : List (String × PyFile)) (files : List String) : List Candidate :=
  files.foldl
    (fun acc file =>
      if pyEndsWith file ".py" then
        match fsRead fs file with
        | none => acc
        | some pf =>
          match pf.ast with
          | none => acc
          | some m => acc ++ appsOfModule file m
      else acc)
    []

/-- Sort key comparison for candidates: `(not file.startswith("app/"),
file)` lexicographically, `false < true` on the Bool. -/
def candLe (a b : Candidate) : Bool :=
  let pa := !(pyStartsWith a.file "app/")
  let pb := !(pyStartsWith b.file "app/")
  if pa == pb then !(charListLt b.file.data a.file.data)
  else pa == false

/-- Stable insertion used by `sortCands`. -/
def insertCand (c : Candidate) : List Candidate → List Candidate
  | [] => [c]
  | x :: xs => if candLe c x then c :: x :: xs else x :: insertCand c xs

/-- Stable sort of candidates, the model of Python `sorted` with the
designated-directory-first key. -/
def sortCands : List Candidate → List Candidate
  | [] => []
  | x :: xs => insertCand x (sortCands xs)

/-- The note text for a missing dependency manifest. -/
def noDepNote : String :=
  "No standard Python dependency file found (requirements.txt / pyproject.toml)."

/-- `detect_python_stack`, parameterised by the iteration order of the
`PYTHON_DEP_FILES` set (see the module comment). -/
def detect_python_stack (depOrder : List String) (repo : Repo) : StackResult :=
  let files := repo.scan.files
  let extensions := repo.scan.file_extensions
  if !(extensions.any (fun e => e.1 == ".py")) then
    { is_python_project := false, confidence := "low", dependency_management := none,
      entrypoint_candidates := [], notes := ["No Python source files detected."] }
  else
    let dep := findDepFile depOrder files
    let conf1 := if dep.isSome then "high" else "medium"
    let notes1 := if dep.isSome then [] else [noDepNote]
    let apps := detect_fastapi_apps repo.fs files
    if apps.isEmpty then
      { is_python_project := true, confidence := conf1, dependency_management := dep,
        entrypoint_candidates := [],
        notes := notes1 ++ ["No FastAPI app instantiation found."] }
    else
      { is_python_project := true, confidence := "high", dependency_management := dep,
        entrypoint_candidates := (sortCands apps).map (fun c => PyVal.dict c),
        notes := notes1 }

/-- The `FRAMEWORK_IMPORTS` dict (insertion order, which Python preserves). -/
def FRAMEWORK_IMPORTS : List (String × String) :=
  [("fastapi", "fastapi"), ("django", "django"), ("flask", "flask")]

/-- The `RUNTIME_IMPORTS` dict. -/
def RUNTIME_IMPORTS : List (String × String) :=
  [("uvicorn", "uvicorn"), ("gunicorn", "gunicorn")]

/-- The `DEFAULT_PORTS` dict. -/
def DEFAULT_PORTS : List (String × Nat) :=
  [("fastapi", 8000), ("flask", 5000), ("django", 8000)]

/-- Python `DEFAULT_PORTS.get(k)`. -/
def lookupPort (k : String) : Option Nat :=
  (DEFAULT_PORTS.find? (fun p => p.1 == k)).map (fun p => p.2)

/-- Result of `_scan_imports`: framework and runtime-server names found,
with one entry appended per file that matches. -/
structure ImportScan where
  frameworks : List String
  runtimes : List String
  deriving Repr, DecidableEq

/-- Appends, for one file content, the names of a token table whose token
occurs as `import TOKEN` or `from TOKEN` in the content. -/
def matchedNames (table : List (String × String)) (content : String) (acc : List String) :
    List String :=
  table.foldl
    (fun l nt =>
      if strContains content ("import " ++ nt.2) || strContains content ("from " ++ nt.2) then
        l ++ [nt.1]
      else l)
    acc

/-- `_scan_imports`: scan every `.py` file (skipping unreadable ones) for
framework and runtime-server import phrasings. -/
def scan_imports (fs : List (String × PyFile)) (files : List String) : ImportScan :=
  files.foldl
    (fun acc file =>
      if pyEndsWith file ".py" then
        match fsRead fs file with
        | none => acc
        | some pf =>
          { frameworks := matchedNames FRAMEWORK_IMPORTS pf.text acc.frameworks,
            runtimes := matchedNames RUNTIME_IMPORTS pf.text acc.runtimes }
      else acc)
    ⟨[], []⟩

/-- `detect_framework`. -/
def detect_framework (repo : Repo) (stack_data : StackResult) : FrameworkResult :=
  let base : FrameworkResult :=
    { framework := none, interface := none, runtime_server := none,
      default_port := none, confidence := "low", notes := [] }
  if !stack_data.is_python_project then
    { base with notes := ["Not a Python project."] }
  else
    let imports := scan_imports repo.fs repo.scan.files
    match pySetList imports.frameworks with
    | [] => { base with notes := ["No known Python web framework imports detected."] }
    | [f] =>
      let withFw : FrameworkResult :=
        { base with
          framework := some f
          confidence := "medium"
          interface :=
            if f == "fastapi" then some "ASGI"
            else if f == "django" then some "ASGI/WSGI"
            else if f == "flask" then some "WSGI"
            else none
          default_port := lookupPort f }
      match pySetList imports.runtimes with
      | [] => withFw
      | [r] => { withFw with runtime_server := some r, confidence := "high" }
      | rs =>
        { withFw with
          notes := withFw.notes ++
            ["Multiple runtime servers detected: " ++ pyListRepr rs ++ "."] }
    | fws =>
      { base with
        notes := ["Multiple frameworks detected: " ++ pyListRepr fws ++ ". Manual review required."] }

/-- `_has_main_guard`: any `If` test whose `ast.unparse` text contains the
double-quoted pattern.  Note that CPython's `ast.unparse` renders string
constants with single quotes, so a literal `__main__` comparison unparses
to a single-quoted form that this check does not match. -/
def has_main_guard (pf : PyFile) : Bool :=
  match pf.ast with
  | none => false
  | some m =>
    m.ifConds.any (fun c =>
      match c with
      | none => false
      | some s => strContains s "__name__ == \"__main__\"")

/-- `_detect_app_object`: any `Assign` node with a plain-name target whose
id is exactly the lowercase string `app`, whatever the assigned value is. -/
def detect_app_object (pf : PyFile) : Bool :=
  match pf.ast with
  | none => false
  | some m => m.assigns.any (fun a => a.targets.any (fun t => t == some "app"))

/-- The `TypeError` raised by `repo_path / candidate` when the candidate
is a dict (as produced by the stack detector) rather than a string. -/
def pathTypeError : String :=
  "TypeError: argument should be a str or an os.PathLike object, not dict"

/-- `repo_path / v` for a dynamically-typed candidate: succeeds on a
string, raises `TypeError` on a dict. -/
def pathStr : PyVal → Except String String
  | .str s => .ok s
  | .dict _ => .error pathTypeError

/-- Phase 1 of `resolve_entrypoint` (script detection): first candidate
that exists and has a main guard wins. -/
def scriptPhase (fs : List (String × PyFile)) : List PyVal → Except String (Option EntrypointResult)
  | [] => .ok none
  | v :: rest => do
    let file ← pathStr v
    match fsRead fs file with
    | some pf =>
      if has_main_guard pf then
        .ok (some { etype := some "script", command := some ["python", file],
                    confidence := "high", notes := [] })
      else scriptPhase fs rest
    | none => scriptPhase fs rest

/-- Phase 2 of `resolve_entrypoint` (service detection): first candidate
that exists and binds the name `app` wins; the command comes from the
interface-family template. -/
def servicePhase (fs : List (String × PyFile)) (interface : String) :
    List PyVal → Except String (Option EntrypointResult)
  | [] => .ok none
  | v :: rest => do
    let file ← pathStr v
    match fsRead fs file with
    | some pf =>
      if detect_app_object pf then
        let modulePath := pyReplace (pyReplace file "/" ".") ".py" ""
        let appRef := modulePath ++ ":app"
        if interface == "ASGI" then
          .ok (some { etype := some "asgi_service",
                      command := some ["uvicorn", appRef, "--host", "0.0.0.0"],
                      confidence := "high", notes := [] })
        else
          .ok (some { etype := some "wsgi_service",
                      command := some ["gunicorn", appRef],
                      confidence := "high", notes := [] })
      else servicePhase fs interface rest
    | none => servicePhase fs interface rest

/-- Python truthiness of an optional string (`None` and the empty string
are falsy). -/
def truthyStr : Option String → Bool
  | none => false
  | some s => !s.isEmpty

/-- `resolve_entrypoint`.  The candidates are taken from the stack
detector's output, where they are dicts; the path join on a dict raises,
which surfaces here as `Except.error`. -/
def resolve_entrypoint (repo : Repo) (framework_data : FrameworkResult)
    (stack_data : StackResult) : Except String EntrypointResult := do
  let candidates := stack_data.entrypoint_candidates
  match ← scriptPhase repo.fs candidates with
  | some r => return r
  | none =>
    if truthyStr framework_data.framework && truthyStr framework_data.interface then
      match ← servicePhase repo.fs (framework_data.interface.getD "") candidates with
      | some r => return r
      | none =>
        return { etype := none, command := none, confidence := "low",
                 notes := ["No resolvable execution entrypoint found."] }
    else
      return { etype := none, command := none, confidence := "low",
               notes := ["No resolvable execution entrypoint found."] }

/-- Python truthiness of an optional command list (`None` and `[]` are
falsy). -/
def truthyCmd : Option (List String) → Bool
  | none => false
  | some l => !l.isEmpty

/-- The clarification-derived reasons of the gate: one entry when the
answer map is absent, else one entry per key whose value is empty. -/
def clarificationReasons : Option (List (String × String)) → List String
  | none => ["Clarification answers missing."]
  | some m =>
    (m.filter (fun p => p.2.isEmpty)).map
      (fun p => "Clarification " ++ pyQuote p.1 ++ " has no answer.")

/-- `evaluate_generation_safety`: the pure safety gate.  Every check of
the fixed checklist runs; each failure appends its own reason; `allowed`
is `len(reasons) == 0`. -/
def evaluate_generation_safety (analyzer_output : AnalyzerOutput)
    (answered_questions : Option (List (String × String))) : Bool × List String :=
  let ps := analyzer_output.python_stack
  let fw := analyzer_output.framework
  let ep := analyzer_output.entrypoint
  let reasons :=
    (if !ps.is_python_project then ["Repository is not a confirmed Python project."] else []) ++
    (if ps.confidence != "high" then ["Python stack confidence is not high."] else []) ++
    (if !truthyStr ps.dependency_management then ["Python dependency management is unknown."] else []) ++
    (if fw.confidence != "high" then ["Framework detection confidence is not high."] else []) ++
    (if !truthyStr fw.framework then ["Application framework is not detected."] else []) ++
    (if !truthyStr fw.interface then ["Application interface (ASGI/WSGI) is not detected."] else []) ++
    (if ep.confidence != "high" then ["Entrypoint resolution confidence is not high."] else []) ++
    (if !truthyCmd ep.command then ["Entrypoint command is missing."] else []) ++
    clarificationReasons answered_questions
  (reasons.length == 0, reasons)

/-- A pending clarification question dict (the fields built by
`build_clarification_questions`; only `id` is read afterwards). -/
structure ClarQuestion where
  id : String
  qtype : String := "selection"
  question : String := ""
  options : List String := []
  deriving Repr, DecidableEq

/-- The per-session `ConversationState` dataclass. -/
structure SessionState where
  session_id : String
  repo_path : Option String := none
  analysis_completed : Bool := false
  analysis_confidence : Option String := none
  analyzer_output : Option AnalyzerOutput := none
  clarifications_required : Bool := false
  pending_questions : List ClarQuestion := []
  answered_questions : List (String × String) := []
  generation_requested : Bool := false
  generation_completed : Bool := false
  deriving Repr, DecidableEq

/-- Python dict assignment `m[k] = v`: update in place when the key
exists (keeping its position), else append. -/
def dictSet (m : List (String × String)) (k v : String) : List (String × String) :=
  if m.any (fun p => p.1 == k) then m.map (fun p => if p.1 == k then (k, v) else p)
  else m ++ [(k, v)]

/-- `submit_clarification_answers`: merge the answers, then, when every
pending question id is answered (vacuously true when nothing is pending),
clear the pending questions and force the aggregate confidence to high.
The Python method has no raise path; it is a total function. -/
def submit_clarification_answers (st : SessionState) (answers : List (String × String)) :
    SessionState :=
  let answered := answers.foldl (fun m p => dictSet m p.1 p.2) st.answered_questions
  if st.pending_questions.all (fun q => answered.any (fun p => p.1 == q.id)) then
    { st with answered_questions := answered, pending_questions := [],
              clarifications_required := false, analysis_confidence := some "high" }
  else
    { st with answered_questions := answered }

/-- The rank a confidence string gets from the `order` dict in
`_lowest_confidence` (`order.get(v, 0)`). -/
def confOrder (v : String) : Nat :=
  if v == "low" then 0 else if v == "medium" then 1 else if v == "high" then 2 else 0

/-- `_lowest_confidence`: Python `min` by rank, returning the first value
of minimal rank (the source never calls it on an empty list; the empty
case, where Python `min` raises, is mapped to the empty string). -/
def lowest_confidence (values : List String) : String :=
  match values with
  | [] => ""
  | v :: vs => vs.foldl (fun acc x => if confOrder x < confOrder acc then x else acc) v

/-- `run_analysis`: scan, run the three detectors in sequence, store the
snapshot and the aggregate confidence.  An exception anywhere (the unset
repo path, or the resolver's `TypeError`) aborts the run with the state
unchanged. -/
def runAnalysis (depOrder : List String) (st : SessionState) (repo : Repo) :
    Except String SessionState :=
  if st.repo_path.isNone then .error "Repository path not set"
  else
    let stack := detect_python_stack depOrder repo
    let fw := detect_framework repo stack
    match resolve_entrypoint repo fw stack with
    | .error e => .error e
    | .ok ep =>
      let ao : AnalyzerOutput :=
        { repository := repo.scan, python_stack := stack, framework := fw, entrypoint := ep }
      .ok { st with
            analyzer_output := some ao
            analysis_completed := true
            analysis_confidence :=
              some (lowest_confidence [stack.confidence, fw.confidence, ep.confidence]) }

/-- `GeneratorInput`. -/
structure GeneratorInput where
  analyzer_output : AnalyzerOutput
  answered_questions : Option (List (String × String))
  deriving Repr, DecidableEq

/-- `GeneratorResult`. -/
structure GeneratorResult where
  dockerfile : Option String
  confidence : String
  warnings : List String
  refused : Bool
  refusal_reason : Option String := none
  deriving Repr, DecidableEq

/-- The `_refuse` helper of the FastAPI generator. -/
def refuseResult (reason : String) : GeneratorResult :=
  { dockerfile := none, confidence := "low", warnings := [], refused := true,
    refusal_reason := some reason }

/-- `_build_dockerfile`: the fixed template, rendered from the validated
fields; a missing port prints as `None`, as Python string formatting
does. -/
def build_dockerfile (dependency_file : String) (command : List String) (port : Option Nat) :
    String :=
  let portStr := match port with | some p => toString p | none => "None"
  let cmdJson := String.intercalate ", " (command.map (fun c => "\"" ++ c ++ "\""))
  "FROM python:3.11-slim\n\nWORKDIR /app\n\nENV PYTHONDONTWRITEBYTECODE=1\nENV PYTHONUNBUFFERED=1\n\nCOPY "
    ++ dependency_file ++ " .\nRUN pip install --no-cache-dir -r " ++ dependency_file
    ++ "\n\nCOPY . .\n\nEXPOSE " ++ portStr ++ "\n\nCMD [" ++ cmdJson ++ "]"

/-- `FastAPIDockerfileGenerator.generate`. -/
def fastapi_generate (input : GeneratorInput) : GeneratorResult :=
  let gate := evaluate_generation_safety input.analyzer_output input.answered_questions
  if !gate.1 then
    { dockerfile := none, confidence := "low", warnings := [], refused := true,
      refusal_reason := some (String.intercalate "; " gate.2) }
  else
    let fw := input.analyzer_output.framework
    let ep := input.analyzer_output.entrypoint
    let ps := input.analyzer_output.python_stack
    if fw.framework != some "fastapi" then refuseResult "Not a FastAPI project"
    else if fw.interface != some "ASGI" then refuseResult "FastAPI app is not ASGI"
    else if !truthyStr ps.dependency_management then refuseResult "Dependency file not detected"
    else
      match ep.command with
      | none => refuseResult "Entrypoint command missing"
      | some cmd =>
        if cmd.isEmpty then refuseResult "Entrypoint command missing"
        else
          { dockerfile :=
              some (build_dockerfile (ps.dependency_management.getD "") cmd fw.default_port),
            confidence := "high", warnings := [], refused := false }

/-- `FastAPIDockerfileGenerator.can_generate`. -/
def fastapi_can_generate (input : GeneratorInput) : Bool :=
  (evaluate_generation_safety input.analyzer_output input.answered_questions).1
    && input.analyzer_output.framework.framework == some "fastapi"
    && input.analyzer_output.framework.interface == some "ASGI"

/-- A generator as the registry holds it: the two-operation contract. -/
structure GeneratorImpl where
  can_generate : GeneratorInput → Bool
  generate : GeneratorInput → GeneratorResult

/-- The FastAPI generator instance. -/
def fastapiGenerator : GeneratorImpl :=
  { can_generate := fastapi_can_generate, generate := fastapi_generate }

/-- The generators registered in `GeneratorRegistry.__init__`. -/
def registryGenerators : List GeneratorImpl := [fastapiGenerator]

/-- `GeneratorRegistry.select`: first registered generator whose predicate
accepts the input. -/
def registry_select (input : GeneratorInput) : Option GeneratorImpl :=
  registryGenerators.find? (fun g => g.can_generate input)

/-- Modelled from the spec: the number of independently failing gate
preconditions of a snapshot/answer pair — one per failing checklist item,
where the clarification item fails once when the map is absent and once
per empty answer value.  Used to compare the gate's reason list against
the spec's exhaustiveness claim. -/
def spec_failing_count (ao : AnalyzerOutput) (aq : Option (List (String × String))) : Nat :=
  (if !ao.python_stack.is_python_project then 1 else 0) +
  (if ao.python_stack.confidence != "high" then 1 else 0) +
  (if !truthyStr ao.python_stack.dependency_management then 1 else 0) +
  (if ao.framework.confidence != "high" then 1 else 0) +
  (if !truthyStr ao.framework.framework then 1 else 0) +
  (if !truthyStr ao.framework.interface then 1 else 0) +
  (if ao.entrypoint.confidence != "high" then 1 else 0) +
  (if !truthyCmd ao.entrypoint.command then 1 else 0) +
  (match aq with
   | none => 1
   | some m => (m.filter (fun p => p.2.isEmpty)).length)

/-- Modelled from the spec: the minimum of two confidence strings under
the total order relayed by `confOrder` (on the three levels, low <
medium < high), preferring the first argument on ties. -/
def spec_min_conf (a b : String) : String :=
  if confOrder a ≤ confOrder b then a else b

/-- A file whose only `app`-like binding uses the capitalisation `App`
(bound to a `FastAPI()` call). -/
def fileAppUpper : PyFile :=
  { text := "from fastapi import FastAPI\nApp = FastAPI()\n",
    ast := some { ifConds := [], assigns := [{ targets := [some "App"], valueCall := some "FastAPI" }] } }

/-- A file that assigns the name `app` to something that is not a
framework-constructor call (`app = 42`). -/
def fileAppNonCall : PyFile :=
  { text := "app = 42\n",
    ast := some { ifConds := [], assigns := [{ targets := [some "app"], valueCall := none }] } }

/-- A candidate file with both a FastAPI app binding and a main guard.
Its `If` test unparses, as CPython renders it, with single quotes. -/
def fileRun : PyFile :=
  { text := "from fastapi import FastAPI\napp = FastAPI()\nif __name__ == \"__main__\":\n    print(0)\n",
    ast := some
      { ifConds := [some ("__name__ == " ++ pyQuote "__main__")],
        assigns := [{ targets := [some "app"], valueCall := some "FastAPI" }] } }

/-- A candidate file with only a FastAPI app binding. -/
def fileServer : PyFile :=
  { text := "from fastapi import FastAPI\napp = FastAPI()\n",
    ast := some { ifConds := [], assigns := [{ targets := [some "app"], valueCall := some "FastAPI" }] } }

/-- Repository for claim C2: a manifest, a service file under `app/` and a
script-style file, both constructing a FastAPI app. -/
def repoC2 : Repo :=
  { scan :=
      { total_files := 3,
        files := ["app/server.py", "requirements.txt", "run.py"],
        file_extensions := [(".py", 2), (".txt", 1)],
        config_files := ["requirements.txt"] },
    fs := [("app/server.py", fileServer), ("run.py", fileRun)] }

/-- Session state with a repo path set, ready for analysis. -/
def stC2 : SessionState := { session_id := "s2", repo_path := some "/repo" }

/-- Repository for claim C5: both recognised manifests are present. -/
def repoC5 : Repo :=
  { scan :=
      { total_files := 3,
        files := ["app.py", "pyproject.toml", "requirements.txt"],
        file_extensions := [(".py", 1), (".toml", 1), (".txt", 1)],
        config_files := ["pyproject.toml", "requirements.txt"] },
    fs := [] }

/-- Repository for claim C7's counterexample: a Python project with a
FastAPI app binding but no recognised dependency manifest. -/
def repoC7 : Repo :=
  { scan :=
      { total_files := 1,
        files := ["main.py"],
        file_extensions := [(".py", 1)],
        config_files := [] },
    fs := [("main.py", fileServer)] }

/-- Repository for claim C7's witness: a Python project with neither a
manifest nor any FastAPI app binding. -/
def repoC7w : Repo :=
  { scan :=
      { total_files := 1,
        files := ["util.py"],
        file_extensions := [(".py", 1)],
        config_files := [] },
    fs := [] }

/-- Repository for claim C4's witness: one file importing two distinct
frameworks. -/
def repoC4 : Repo :=
  { scan :=
      { total_files := 1,
        files := ["a.py"],
        file_extensions := [(".py", 1)],
        config_files := [] },
    fs := [("a.py", { text := "import fastapi\nimport flask\n", ast := some { ifConds := [], assigns := [] } })] }

/-- Stack result for claim C4's witness. -/
def stackC4 : StackResult :=
  { is_python_project := true, confidence := "medium", dependency_management := none,
    entrypoint_candidates := [], notes := [] }

/-- Session state for claim C6's counterexample: analysis done at medium
confidence with no pending clarification question. -/
def stC6 : SessionState :=
  { session_id := "s6", repo_path := some "/repo", analysis_completed := true,
    analysis_confidence := some "medium" }

/-- Session state for claim C6's witness. -/
def stC6w : SessionState :=
  { session_id := "s6w", repo_path := some "/repo", analysis_completed := true,
    analysis_confidence := some "low" }

/-- Empty repository for claim C3's witness. -/
def repoC3 : Repo := { scan := {}, fs := [] }

/-- Session state for claim C3's witness. -/
def stC3 : SessionState := { session_id := "s3", repo_path := some "/repo" }

/-- Analyzer snapshot whose stack, framework and entrypoint checks all
pass, for claims C8 and C10. -/
def aoPassing : AnalyzerOutput :=
  { python_stack :=
      { is_python_project := true, confidence := "high",
        dependency_management := some "requirements.txt",
        entrypoint_candidates := [], notes := [] },
    framework :=
      { framework := some "fastapi", interface := some "ASGI",
        runtime_server := some "uvicorn", default_port := some 8000,
        confidence := "high", notes := [] },
    entrypoint :=
      { etype := some "asgi_service",
        command := some ["uvicorn", "main:app", "--host", "0.0.0.0"],
        confidence := "high", notes := [] } }

/-- Generator input for claim C8's witness. -/
def inputC8 : GeneratorInput :=
  { analyzer_output := aoPassing, answered_questions := some [] }

theorem length_flagList (b : Bool) (r : String) :
    (if b then [r] else []).length = if b then 1 else 0 := by
  cases b <;> rfl

theorem clarificationReasons_length (aq : Option (List (String × String))) :
    (clarificationReasons aq).length =
      match aq with
      | none => 1
      | some m => (m.filter (fun p => p.2.isEmpty)).length := by
  cases aq <;> simp [clarificationReasons]

/-- C1: the safety gate `evaluate_generation_safety` is a pure function of
the snapshot and the answered-questions map that runs its whole checklist
without short-circuiting: the length of the returned reason list equals
the number of independently failing preconditions (so three failing
preconditions yield exactly three reasons), and the allowed flag is true
exactly when the reason list is empty. -/
theorem gate_checklist_exhaustive (ao : AnalyzerOutput)
    (aq : Option (List (String × String))) :
    (evaluate_generation_safety ao aq).2.length = spec_failing_count ao aq ∧
    ((evaluate_generation_safety ao aq).1 = true ↔
      (evaluate_generation_safety ao aq).2 = []) := by
  constructor
  · simp only [evaluate_generation_safety, spec_failing_count, List.length_append,
      length_flagList, clarificationReasons_length]
  · simp only [evaluate_generation_safety]
    generalize (_ ++ clarificationReasons aq : List String) = l
    cases l <;> simp

/-- C9 (amended): in the service phase, a candidate file qualifies exactly
when its parse succeeded and some assignment binds the exact lowercase
name `app` — whatever value is assigned; the comparison is
case-sensitive and the right-hand side is never inspected. -/
theorem detect_app_object_characterization (pf : PyFile) :
    detect_app_object pf = true ↔
      ∃ m, pf.ast = some m ∧ ∃ a ∈ m.assigns, some "app" ∈ a.targets := by
  cases h : pf.ast with
  | none => simp [detect_app_object, h]
  | some m =>
    simp only [detect_app_object, h, List.any_eq_true, Option.some.injEq]
    constructor
    · rintro ⟨a, ha, t, ht, hteq⟩
      exact ⟨m, rfl, a, ha, by simpa using (beq_iff_eq.mp hteq ▸ ht)⟩
    · rintro ⟨m', hm', a, ha, ht⟩
      cases hm'
      exact ⟨a, ha, some "app", ht, by simp⟩

/-- C9 (counterexample to the claim as stated): a file whose only binding
is `App = FastAPI()` is not detected (the comparison is not
case-insensitive), while `app = 42` is detected (the value need not be a
framework-constructor call). -/
theorem detect_app_object_case_and_value :
    detect_app_object fileAppUpper = false ∧ detect_app_object fileAppNonCall = true := by
  constructor <;> rfl

/-- C6 (counterexample to the claim as stated): submitting answers while
no question is pending does not raise — `submit_clarification_answers`
is total and, run on a state with no pending questions and medium
confidence, it silently forces the aggregate confidence to high. -/
theorem submit_without_pending_forces_high :
    stC6.pending_questions = [] ∧ stC6.analysis_confidence = some "medium" ∧
    (submit_clarification_answers stC6 []).analysis_confidence = some "high" := by
  exact ⟨rfl, rfl, rfl⟩

/-- C6 (amended): submitting clarification answers when no question is
pending is silently accepted, not an error: the empty pending set counts
as fully answered, so the pending list is cleared (stays empty), the
clarifications-required flag is reset and the aggregate confidence is
forced to high. -/
theorem submit_without_pending_silently_accepted (st : SessionState)
    (answers : List (String × String)) (h : st.pending_questions = []) :
    (submit_clarification_answers st answers).analysis_confidence = some "high" ∧
    (submit_clarification_answers st answers).pending_questions = [] ∧
    (submit_clarification_answers st answers).clarifications_required = false := by
  simp [submit_clarification_answers, h]

/-- Witness for C6's amended theorem at a concrete state. -/
theorem submit_without_pending_silently_accepted_witness :
    (submit_clarification_answers stC6w [("q1", "a1")]).analysis_confidence = some "high" ∧
    (submit_clarification_answers stC6w [("q1", "a1")]).pending_questions = [] ∧
    (submit_clarification_answers stC6w [("q1", "a1")]).clarifications_required = false :=
  submit_without_pending_silently_accepted stC6w [("q1", "a1")] rfl

theorem lowest_confidence_three (a b c : String) :
    lowest_confidence [a, b, c] = spec_min_conf a (spec_min_conf b c) := by
  simp only [lowest_confidence, List.foldl, spec_min_conf]
  split_ifs <;> first | rfl | omega

/-- C3: for every completed analysis run, the aggregate confidence the
orchestrator stores in the session state is the minimum of the stack,
framework and entrypoint confidences of the stored snapshot, where
`spec_min_conf` realises the total order low < medium < high via the
ranks of `_lowest_confidence`. -/
theorem aggregate_confidence_is_min (depOrder : List String) (st st' : SessionState)
    (repo : Repo) (h : runAnalysis depOrder st repo = .ok st') :
    ∃ ao, st'.analyzer_output = some ao ∧
      st'.analysis_confidence =
        some (spec_min_conf ao.python_stack.confidence
          (spec_min_conf ao.framework.confidence ao.entrypoint.confidence)) := by
  unfold runAnalysis at h
  split at h
  · exact absurd h (by simp)
  · dsimp only at h
    split at h
    · exact absurd h (by simp)
    · rename_i ep hep
      injection h with h
      subst h
      refine ⟨_, rfl, ?_⟩
      simp [lowest_confidence_three]

/-- Witness for C3 at a concrete completed run. -/
theorem aggregate_confidence_is_min_witness :
    ∃ st', runAnalysis PYTHON_DEP_FILES stC3 repoC3 = .ok st' ∧
      ∃ ao, st'.analyzer_output = some ao ∧
        st'.analysis_confidence =
          some (spec_min_conf ao.python_stack.confidence
            (spec_min_conf ao.framework.confidence ao.entrypoint.confidence)) := by
  refine ⟨_, rfl, ?_⟩
  exact aggregate_confidence_is_min PYTHON_DEP_FILES stC3 _ repoC3 rfl

/-- C4: whenever more than one distinct framework import signal is found
anywhere in a Python repository, `detect_framework` refuses: framework
is none, no interface family or default port is assigned, confidence is
not raised above low, and the single diagnostic note demands manual
review.  The function never reads any entrypoint evidence, so the result
holds regardless of it. -/
theorem multiple_frameworks_never_resolved (repo : Repo) (stack : StackResult)
    (hpy : stack.is_python_project = true)
    (hmulti : 2 ≤ (pySetList (scan_imports repo.fs repo.scan.files).frameworks).length) :
    (detect_framework repo stack).framework = none ∧
    (detect_framework repo stack).interface = none ∧
    (detect_framework repo stack).default_port = none ∧
    (detect_framework repo stack).confidence = "low" ∧
    (detect_framework repo stack).notes =
      ["Multiple frameworks detected: " ++
        pyListRepr (pySetList (scan_imports repo.fs repo.scan.files).frameworks) ++
        ". Manual review required."] := by
  unfold detect_framework
  rw [hpy]
  simp only [Bool.not_true, Bool.false_eq_true, if_false]
  rcases hl : pySetList (scan_imports repo.fs repo.scan.files).frameworks with _ | ⟨f, _ | ⟨g, rest⟩⟩
  · rw [hl] at hmulti; simp at hmulti
  · rw [hl] at hmulti; simp at hmulti
  · exact ⟨rfl, rfl, rfl, rfl, rfl⟩

/-- Witness for C4 at a repository importing two distinct frameworks. -/
theorem multiple_frameworks_never_resolved_witness :
    (detect_framework repoC4 stackC4).framework = none ∧
    (detect_framework repoC4 stackC4).interface = none ∧
    (detect_framework repoC4 stackC4).default_port = none ∧
    (detect_framework repoC4 stackC4).confidence = "low" ∧
    (detect_framework repoC4 stackC4).notes =
      ["Multiple frameworks detected: " ++
        pyListRepr (pySetList (scan_imports repoC4.fs repoC4.scan.files).frameworks) ++
        ". Manual review required."] :=
  multiple_frameworks_never_resolved repoC4 stackC4 rfl (by decide)

theorem findDepFile_none (depOrder files : List String)
    (h : ∀ d ∈ depOrder, files.contains d = false) : findDepFile depOrder files = none := by
  induction depOrder with
  | nil => rfl
  | cons d rest ih =>
    simp only [findDepFile, h d (by simp), if_false]
    exact ih (fun x hx => h x (by simp [hx]))

/-- C7 (counterexample to the claim as stated): a confirmed Python
repository without any recognised dependency manifest in which a FastAPI
app binding is found gets confidence high, not medium — candidate
evidence alone raises the confidence. -/
theorem no_manifest_but_high_confidence :
    (detect_python_stack PYTHON_DEP_FILES repoC7).is_python_project = true ∧
    (detect_python_stack PYTHON_DEP_FILES repoC7).dependency_management = none ∧
    (detect_python_stack PYTHON_DEP_FILES repoC7).confidence = "high" :=
  ⟨rfl, rfl, rfl⟩

/-- C7 (amended): for a confirmed Python repository with no recognised
dependency manifest, `detect_python_stack` keeps the missing-manifest
diagnostic note and reports confidence medium only when no entrypoint
candidate is found; finding FastAPI app candidates raises the confidence
to high even without a manifest, and finding none does not lower it
below medium. -/
theorem no_manifest_confidence (depOrder : List String) (repo : Repo)
    (hpy : repo.scan.file_extensions.any (fun e => e.1 == ".py") = true)
    (hnodep : ∀ d ∈ depOrder, repo.scan.files.contains d = false) :
    (detect_python_stack depOrder repo).dependency_management = none ∧
    noDepNote ∈ (detect_python_stack depOrder repo).notes ∧
    (detect_python_stack depOrder repo).confidence =
      (if (detect_fastapi_apps repo.fs repo.scan.files).isEmpty then "medium" else "high") := by
  have hdep : findDepFile depOrder repo.scan.files = none :=
    findDepFile_none depOrder repo.scan.files hnodep
  unfold detect_python_stack
  simp only [hpy, Bool.not_true, Bool.false_eq_true, if_false, hdep, Option.isSome_none]
  by_cases happ : (detect_fastapi_apps repo.fs repo.scan.files).isEmpty = true
  · simp [happ]
  · simp only [Bool.not_eq_true] at happ
    simp [happ]

/-- Witness for C7's amended theorem at a concrete repository with no
manifest and no candidates. -/
theorem no_manifest_confidence_witness :
    (detect_python_stack PYTHON_DEP_FILES repoC7w).dependency_management = none ∧
    noDepNote ∈ (detect_python_stack PYTHON_DEP_FILES repoC7w).notes ∧
    (detect_python_stack PYTHON_DEP_FILES repoC7w).confidence =
      (if (detect_fastapi_apps repoC7w.fs repoC7w.scan.files).isEmpty then "medium" else "high") :=
  no_manifest_confidence PYTHON_DEP_FILES repoC7w (by decide) (by decide)

/-- C5: the dependency-management choice of `detect_python_stack` depends
on the iteration order of the `PYTHON_DEP_FILES` set.  Both orders below
enumerate exactly the elements of that set, and CPython string sets fix
no iteration order across interpreter runs (hash randomisation), so two
runs of the self-described deterministic analyzer over the same snapshot
can pick different manifests — the code contradicts its own
documentation and the determinism claim. -/
theorem dependency_choice_depends_on_set_iteration_order :
    List.Perm ["requirements.txt", "pyproject.toml"] PYTHON_DEP_FILES ∧
    List.Perm ["pyproject.toml", "requirements.txt"] PYTHON_DEP_FILES ∧
    (detect_python_stack ["requirements.txt", "pyproject.toml"] repoC5).dependency_management =
      some "requirements.txt" ∧
    (detect_python_stack ["pyproject.toml", "requirements.txt"] repoC5).dependency_management =
      some "pyproject.toml" :=
  ⟨by decide, by decide, rfl, rfl⟩

/-- C2: on a repository whose stack-detector candidate list contains both
a file with a main-guard and a file with an app-object binding, the
pipeline does not resolve a script entrypoint: the candidates are dicts,
`resolve_entrypoint` joins the repository path with the dict itself and
raises `TypeError` on the first candidate, so the whole analysis run
aborts.  (Additionally, the main-guard pattern compares against a
double-quoted rendering that CPython's `ast.unparse` never emits, shown
by the `has_main_guard` conjunct.) -/
theorem script_precedence_crashes_on_dict_candidates :
    (detect_python_stack PYTHON_DEP_FILES repoC2).entrypoint_candidates =
      [PyVal.dict ⟨"app/server.py", "app"⟩, PyVal.dict ⟨"run.py", "app"⟩] ∧
    detect_app_object fileServer = true ∧
    strContains fileRun.text "if __name__ == \"__main__\":" = true ∧
    has_main_guard fileRun = false ∧
    resolve_entrypoint repoC2
      (detect_framework repoC2 (detect_python_stack PYTHON_DEP_FILES repoC2))
      (detect_python_stack PYTHON_DEP_FILES repoC2) = .error pathTypeError ∧
    runAnalysis PYTHON_DEP_FILES stC2 repoC2 = .error pathTypeError := by
  refine ⟨rfl, rfl, by decide, rfl, rfl, rfl⟩

/-- C8: every generator held by the registry returns an artifact text
exactly when it does not refuse: the dockerfile field is non-None iff the
refused flag is false. -/
theorem generator_text_iff_not_refused (g : GeneratorImpl)
    (hg : g ∈ registryGenerators) (input : GeneratorInput) :
    ((g.generate input).dockerfile ≠ none ↔ (g.generate input).refused = false) := by
  have hgen : g = fastapiGenerator := by
    simpa [registryGenerators] using hg
  subst hgen
  show (fastapi_generate input).dockerfile ≠ none ↔ (fastapi_generate input).refused = false
  simp only [fastapi_generate, refuseResult]
  repeat' split
  all_goals simp

/-- Witness for C8 at the registered FastAPI generator on a passing
input. -/
theorem generator_text_iff_not_refused_witness :
    ((fastapiGenerator.generate inputC8).dockerfile ≠ none ↔
      (fastapiGenerator.generate inputC8).refused = false) :=
  generator_text_iff_not_refused fastapiGenerator (by simp [registryGenerators]) inputC8

/-- C10: the gate never requires that a clarification question was asked
or answered — for a snapshot whose stack, framework and entrypoint checks
all pass, any present answer map whose values are all non-empty (the
empty map included) yields an allowed verdict with no reasons. -/
theorem gate_allows_empty_answer_map (ao : AnalyzerOutput) (m : List (String × String))
    (h1 : ao.python_stack.is_python_project = true)
    (h2 : ao.python_stack.confidence = "high")
    (h3 : truthyStr ao.python_stack.dependency_management = true)
    (h4 : ao.framework.confidence = "high")
    (h5 : truthyStr ao.framework.framework = true)
    (h6 : truthyStr ao.framework.interface = true)
    (h7 : ao.entrypoint.confidence = "high")
    (h8 : truthyCmd ao.entrypoint.command = true)
    (h9 : ∀ p ∈ m, p.2.isEmpty = false) :
    evaluate_generation_safety ao (some m) = (true, []) := by
  have hf : m.filter (fun p => p.2.isEmpty) = [] := by
    rw [List.filter_eq_nil_iff]
    intro a ha
    simp [h9 a ha]
  simp [evaluate_generation_safety, clarificationReasons, h1, h2, h3, h4, h5, h6, h7, h8, hf]

/-- Witness for C10: a fully-passing snapshot with the empty answer map is
allowed. -/
theorem gate_allows_empty_answer_map_witness :
    evaluate_generation_safety aoPassing (some []) = (true, []) :=
  gate_allows_empty_answer_map aoPassing [] rfl rfl rfl rfl rfl rfl rfl rfl (by simp)
